import Mathlib

/-!
# lab2_main.cpp : texture filtering demo, render loop and sampler state

A shallow embedding of `lab2_main.cpp`.  The program keeps a handful of global
parameters (`mag`, `mini`, `anisotropy`, `camera_pan`, `showUI`, `minMode`,
`maxMode`), creates two textured quads in `initialize`, and then runs a render
loop whose body is: poll events, `display`, optionally `gui`, `ImGui::Render`,
two `switch` statements that turn the selections into filter constants, and
four OpenGL calls that write the sampler parameters of the ground texture.

Modelling decisions.

* `int` globals are `Int`.  No arithmetic is done on them, so no wrap-around
  can occur.
* `float` globals are rationals.  The program never computes with `anisotropy`
  or `camera_pan`; it only stores them and hands them to OpenGL, so every
  finite float is represented exactly by the rational it denotes.
* The OpenGL context is a record `GLContext` holding the server state the
  program touches: capabilities, blend function, bindings, the parameters of
  the texture objects, the `cameraPosition` uniform and the list of draw calls
  issued since the last `glClear`.  Every draw call records the state it was
  issued in.  A texture parameter holds the value the program handed to
  `glTexParameter*`; what a driver does with that value when sampling is not
  part of the program.
* Vertex, index and texture-coordinate buffers, the clear colour and the
  entries of the projection matrix play no role in the properties below and
  are left out; the projection upload is recorded by the window size it was
  computed from.
* The enumerants are the values of the OpenGL headers (`GL/glew.h`).
-/

namespace Lab2

/-! ## OpenGL enumerants (values of the OpenGL headers) -/

def GL_NEAREST : Int := 0x2600
def GL_LINEAR : Int := 0x2601
def GL_NEAREST_MIPMAP_NEAREST : Int := 0x2700
def GL_LINEAR_MIPMAP_NEAREST : Int := 0x2701
def GL_NEAREST_MIPMAP_LINEAR : Int := 0x2702
def GL_LINEAR_MIPMAP_LINEAR : Int := 0x2703
def GL_TEXTURE_MAG_FILTER : Int := 0x2800
def GL_TEXTURE_MIN_FILTER : Int := 0x2801
def GL_TEXTURE_WRAP_S : Int := 0x2802
def GL_TEXTURE_WRAP_T : Int := 0x2803
def GL_TEXTURE_MAX_ANISOTROPY_EXT : Int := 0x84FE
def GL_REPEAT : Int := 0x2901
def GL_CLAMP_TO_EDGE : Int := 0x812F
def GL_BLEND : Int := 0x0BE2
def GL_CULL_FACE : Int := 0x0B44
def GL_DEPTH_TEST : Int := 0x0B71
def GL_ZERO : Int := 0
def GL_ONE : Int := 1
def GL_SRC_ALPHA : Int := 0x0302
def GL_ONE_MINUS_SRC_ALPHA : Int := 0x0303

/-! ## OpenGL server state -/

/-- Parameters of one texture object. -/
structure TexObj where
  wrapS : Int
  wrapT : Int
  magFilter : Int
  minFilter : Int
  maxAnisotropy : ℚ
  hasImage : Bool
  hasMipmaps : Bool
  deriving DecidableEq

/-- A texture object as `glGenTextures` / first bind creates it: the initial
parameter values of the OpenGL specification. -/
def TexObj.fresh : TexObj :=
  { wrapS := GL_REPEAT, wrapT := GL_REPEAT, magFilter := GL_LINEAR,
    minFilter := GL_NEAREST_MIPMAP_LINEAR, maxAnisotropy := 1,
    hasImage := false, hasMipmaps := false }

/-- One `glDrawElements` call together with the state it was issued in. -/
structure DrawCall where
  vao : Nat
  tex : Nat
  program : Nat
  blend : Bool
  blendSrc : Int
  blendDst : Int
  depthTest : Bool
  count : Nat
  deriving DecidableEq

/-- The part of the OpenGL context the program reads or writes. -/
structure GLContext where
  viewport : Int × Int × Int × Int
  cullFace : Bool
  depthTest : Bool
  blend : Bool
  blendSrc : Int
  blendDst : Int
  program : Nat
  vao : Nat
  boundTex : Nat
  tex : Nat → TexObj
  nextVao : Nat
  nextTex : Nat
  nextProgram : Nat
  cameraPosition : ℚ × ℚ × ℚ
  projectionWindow : Option (Int × Int)
  draws : List DrawCall

/-- Context right after creation, with the initial values of the OpenGL
specification: capabilities disabled, blend function `(GL_ONE, GL_ZERO)`,
nothing bound, no object names in use. -/
def GLContext.boot : GLContext :=
  { viewport := (0, 0, 0, 0), cullFace := false, depthTest := false, blend := false,
    blendSrc := GL_ONE, blendDst := GL_ZERO, program := 0, vao := 0, boundTex := 0,
    tex := fun _ => TexObj.fresh, nextVao := 1, nextTex := 1, nextProgram := 1,
    cameraPosition := (0, 0, 0), projectionWindow := none, draws := [] }

/-- Replace the texture object with name `n`. -/
def GLContext.setTex (g : GLContext) (n : Nat) (t : TexObj) : GLContext :=
  { g with tex := fun m => if m = n then t else g.tex m }

def glViewport (x y w h : Int) (g : GLContext) : GLContext := { g with viewport := (x, y, w, h) }

/-- Clearing the colour and depth buffers discards what was drawn so far. -/
def glClear (g : GLContext) : GLContext := { g with draws := [] }

def glEnable (cap : Int) (g : GLContext) : GLContext :=
  if cap = GL_BLEND then { g with blend := true }
  else if cap = GL_CULL_FACE then { g with cullFace := true }
  else if cap = GL_DEPTH_TEST then { g with depthTest := true }
  else g

def glDisable (cap : Int) (g : GLContext) : GLContext :=
  if cap = GL_BLEND then { g with blend := false }
  else if cap = GL_CULL_FACE then { g with cullFace := false }
  else if cap = GL_DEPTH_TEST then { g with depthTest := false }
  else g

def glBlendFunc (sfactor dfactor : Int) (g : GLContext) : GLContext :=
  { g with blendSrc := sfactor, blendDst := dfactor }

def glUseProgram (p : Nat) (g : GLContext) : GLContext := { g with program := p }

def glBindVertexArray (v : Nat) (g : GLContext) : GLContext := { g with vao := v }

def glBindTexture (t : Nat) (g : GLContext) : GLContext := { g with boundTex := t }

/-- Hand out an unused vertex array name. -/
def glGenVertexArrays (g : GLContext) : Nat × GLContext := (g.nextVao, { g with nextVao := g.nextVao + 1 })

/-- Hand out an unused texture name. -/
def glGenTextures (g : GLContext) : Nat × GLContext := (g.nextTex, { g with nextTex := g.nextTex + 1 })

/-- Upload of the base image into the bound texture. -/
def glTexImage2D (g : GLContext) : GLContext :=
  g.setTex g.boundTex { g.tex g.boundTex with hasImage := true }

def glGenerateMipmap (g : GLContext) : GLContext :=
  g.setTex g.boundTex { g.tex g.boundTex with hasMipmaps := true }

/-- Integer texture parameter of the bound texture. -/
def glTexParameteri (pname : Int) (v : Int) (g : GLContext) : GLContext :=
  let t := g.tex g.boundTex
  if pname = GL_TEXTURE_MAG_FILTER then g.setTex g.boundTex { t with magFilter := v }
  else if pname = GL_TEXTURE_MIN_FILTER then g.setTex g.boundTex { t with minFilter := v }
  else if pname = GL_TEXTURE_WRAP_S then g.setTex g.boundTex { t with wrapS := v }
  else if pname = GL_TEXTURE_WRAP_T then g.setTex g.boundTex { t with wrapT := v }
  else g

/-- Float texture parameter of the bound texture. -/
def glTexParameterf (pname : Int) (v : ℚ) (g : GLContext) : GLContext :=
  if pname = GL_TEXTURE_MAX_ANISOTROPY_EXT then
    g.setTex g.boundTex { g.tex g.boundTex with maxAnisotropy := v }
  else g

/-- The call `glDrawElements(GL_TRIANGLES, count, GL_UNSIGNED_INT, 0)`. -/
def glDrawElements (count : Nat) (g : GLContext) : GLContext :=
  { g with draws := g.draws ++
      [{ vao := g.vao, tex := g.boundTex, program := g.program, blend := g.blend,
         blendSrc := g.blendSrc, blendDst := g.blendDst, depthTest := g.depthTest,
         count := count }] }

/-! ## Program state -/

/-- The globals of `lab2_main.cpp`, the local `stopRendering` of `main`, and
the OpenGL context. -/
structure State where
  mag : Int
  mini : Int
  anisotropy : ℚ
  camera_pan : ℚ
  showUI : Bool
  minMode : Int
  maxMode : Int
  shaderProgram : Nat
  vertexArrayObject : Nat
  vertexArrayObject2 : Nat
  texture : Nat
  texture2 : Nat
  stopRendering : Bool
  gl : GLContext

/-- The state at process start: the initialisers of the globals (lines 25-31),
handles still zero, a new OpenGL context. -/
def State.start : State :=
  { mag := 1, mini := 5, anisotropy := 16, camera_pan := 0, showUI := false,
    minMode := GL_NEAREST, maxMode := GL_NEAREST,
    shaderProgram := 0, vertexArrayObject := 0, vertexArrayObject2 := 0,
    texture := 0, texture2 := 0, stopRendering := false, gl := GLContext.boot }

/-- The function `initialize` (lines 57-219); the name is a reserved word of
Lean, hence `initializeScene`.  Buffers are left out, and so is the guard
`ENSURE_INITIALIZE_ONLY_ONCE`: `main` calls the function once. -/
def initializeScene (s : State) : State :=
  let (vao, g) := glGenVertexArrays s.gl
  let g := glBindVertexArray vao g
  -- labhelper::loadShaderProgram returns a new program object
  let prog := g.nextProgram
  let g := { g with nextProgram := g.nextProgram + 1 }
  -- ground texture
  let g := glBindVertexArray vao g
  let (texture, g) := glGenTextures g
  let g := glBindTexture texture g
  let g := glTexImage2D g
  let g := glTexParameteri GL_TEXTURE_WRAP_S GL_REPEAT g
  let g := glTexParameteri GL_TEXTURE_WRAP_T GL_REPEAT g
  let g := glGenerateMipmap g
  let g := glTexParameteri GL_TEXTURE_MAG_FILTER GL_LINEAR g
  let g := glTexParameteri GL_TEXTURE_MIN_FILTER GL_LINEAR_MIPMAP_LINEAR g
  let g := glTexParameterf GL_TEXTURE_MAX_ANISOTROPY_EXT 16 g
  -- billboard
  let (vao2, g) := glGenVertexArrays g
  let g := glBindVertexArray vao2 g
  let (texture2, g) := glGenTextures g
  let g := glBindTexture texture2 g
  let g := glTexImage2D g
  let g := glTexParameteri GL_TEXTURE_WRAP_S GL_CLAMP_TO_EDGE g
  let g := glTexParameteri GL_TEXTURE_WRAP_T GL_CLAMP_TO_EDGE g
  let g := glGenerateMipmap g
  let g := glTexParameteri GL_TEXTURE_MAG_FILTER GL_LINEAR g
  let g := glTexParameteri GL_TEXTURE_MIN_FILTER GL_LINEAR_MIPMAP_LINEAR g
  let g := glTexParameterf GL_TEXTURE_MAX_ANISOTROPY_EXT 16 g
  { s with shaderProgram := prog, vertexArrayObject := vao, vertexArrayObject2 := vao2,
           texture := texture, texture2 := texture2, gl := g }

/-- The function `display` (lines 226-282) for a window of `w` by `h` pixels,
the size `SDL_GetWindowSize` reports.  `glActiveTexture(GL_TEXTURE0)` selects
the one texture unit the program ever uses and is not recorded. -/
def display (w h : Int) (s : State) : State :=
  let g := glViewport 0 0 w h s.gl
  let g := glClear g
  let g := glDisable GL_CULL_FACE g
  let g := glDisable GL_DEPTH_TEST g
  let g := glUseProgram s.shaderProgram g
  let g := { g with projectionWindow := some (w, h) }
  -- glUniform3f(loc, camera_pan, 10, 0)
  let g := { g with cameraPosition := (s.camera_pan, 10, 0) }
  let g := glBindVertexArray s.vertexArrayObject g
  let g := glBindTexture s.texture g
  let g := glDrawElements 6 g
  let g := glEnable GL_BLEND g
  let g := glBlendFunc GL_SRC_ALPHA GL_ONE_MINUS_SRC_ALPHA g
  let g := glBindVertexArray s.vertexArrayObject2 g
  let g := glBindTexture s.texture2 g
  let g := glDrawElements 6 g
  let g := glUseProgram 0 g
  { s with gl := g }

/-- What the user did to the control panel during one frame: which radio
buttons were pressed and the new slider values, if any. -/
structure GuiInput where
  magNearest : Bool
  magLinear : Bool
  miniNearest : Bool
  miniLinear : Bool
  miniNearestMipNearest : Bool
  miniNearestMipLinear : Bool
  miniLinearMipNearest : Bool
  miniLinearMipLinear : Bool
  anisotropySlider : Option ℚ
  cameraSlider : Option ℚ

/-- No widget touched. -/
def GuiInput.idle : GuiInput :=
  { magNearest := false, magLinear := false, miniNearest := false, miniLinear := false,
    miniNearestMipNearest := false, miniNearestMipLinear := false,
    miniLinearMipNearest := false, miniLinearMipLinear := false,
    anisotropySlider := none, cameraSlider := none }

/-- The widget `ImGui::RadioButton(label, &v, v_button)`: a press stores
`v_button` in `v`. -/
def radioButton (pressed : Bool) (v : Int) (v_button : Int) : Int :=
  if pressed then v_button else v

/-- The widget `ImGui::SliderFloat(label, &v, ...)`: a change stores the new
value in `v`. -/
def sliderFloat (changed : Option ℚ) (v : ℚ) : ℚ :=
  match changed with
  | some x => x
  | none => v

/-- The function `gui` (lines 288-314). -/
def gui (u : GuiInput) (s : State) : State :=
  let mag := radioButton u.magNearest s.mag 0
  let mag := radioButton u.magLinear mag 1
  let mini := radioButton u.miniNearest s.mini 0
  let mini := radioButton u.miniLinear mini 1
  let mini := radioButton u.miniNearestMipNearest mini 2
  let mini := radioButton u.miniNearestMipLinear mini 3
  let mini := radioButton u.miniLinearMipNearest mini 4
  let mini := radioButton u.miniLinearMipLinear mini 5
  let anisotropy := sliderFloat u.anisotropySlider s.anisotropy
  let camera_pan := sliderFloat u.cameraSlider s.camera_pan
  { s with mag := mag, mini := mini, anisotropy := anisotropy, camera_pan := camera_pan }

/-- The events the loop distinguishes. -/
inductive Event where
  | quit
  | keyUpEscape
  | keyUpG
  | keyUpPrintScreen
  | other
  deriving DecidableEq

/-- The body of the event loop (lines 336-347) for one event. -/
def handleEvent (s : State) (e : Event) : State :=
  match e with
  | .quit => { s with stopRendering := true }
  | .keyUpEscape => { s with stopRendering := true }
  | .keyUpG => { s with showUI := !s.showUI }
  | .keyUpPrintScreen => s
  | .other => s

/-- The loop `while(SDL_PollEvent(&event))` (lines 331-348). -/
def pollEvents (evs : List Event) (s : State) : State := evs.foldl handleEvent s

/-- The statement `switch (mini)` (lines 362-384): the new value of `minMode`. -/
def minSwitch (mini : Int) (minMode : Int) : Int :=
  if mini = 0 then GL_NEAREST
  else if mini = 1 then GL_LINEAR
  else if mini = 2 then GL_NEAREST_MIPMAP_NEAREST
  else if mini = 3 then GL_NEAREST_MIPMAP_LINEAR
  else if mini = 4 then GL_LINEAR_MIPMAP_NEAREST
  else if mini = 5 then GL_LINEAR_MIPMAP_LINEAR
  else minMode

/-- The statement `switch (mag)` (lines 386-395): the new value of `maxMode`. -/
def magSwitch (mag : Int) (maxMode : Int) : Int :=
  if mag = 0 then GL_NEAREST
  else if mag = 1 then GL_LINEAR
  else maxMode

/-- The three parameter writes of lines 398-401; they go to whatever texture
is bound. -/
def writeSamplerParams (magFilter minFilter : Int) (anisotropy : ℚ) (g : GLContext) :
    GLContext :=
  let g := glTexParameteri GL_TEXTURE_MAG_FILTER magFilter g
  let g := glTexParameteri GL_TEXTURE_MIN_FILTER minFilter g
  glTexParameterf GL_TEXTURE_MAX_ANISOTROPY_EXT anisotropy g

/-- The four calls of lines 397-401 for the texture `texture`: bind it, then
write the three parameters. -/
def applySamplerState (texture : Nat) (magFilter minFilter : Int) (anisotropy : ℚ)
    (g : GLContext) : GLContext :=
  writeSamplerParams magFilter minFilter anisotropy (glBindTexture texture g)

/-- Lines 362-401: both switches, then the sampler parameters of the ground
texture. -/
def updateSampler (s : State) : State :=
  let minMode := minSwitch s.mini s.minMode
  let maxMode := magSwitch s.mag s.maxMode
  { s with minMode := minMode, maxMode := maxMode,
           gl := applySamplerState s.texture maxMode minMode s.anisotropy s.gl }

/-- What one iteration of the render loop receives from outside. -/
structure FrameInput where
  events : List Event
  width : Int
  height : Int
  ui : GuiInput

/-- A frame without events or widget activity in an 800 by 600 window. -/
def FrameInput.idle : FrameInput :=
  { events := [], width := 800, height := 600, ui := GuiInput.idle }

/-- Lines 327-360 of the loop body: events, `display`, and `gui` when the
panel is shown.  `ImGui_ImplSdlGL3_NewFrame` and `ImGui::Render` save and
restore the OpenGL state they use, so they leave `GLContext` as it is. -/
def uiStep (i : FrameInput) (s : State) : State :=
  let s := pollEvents i.events s
  let s := display i.width i.height s
  if s.showUI then gui i.ui s else s

/-- One iteration of the render loop (lines 326-404).  `SDL_GL_SwapWindow`
presents the frame and changes nothing recorded here. -/
def frame (i : FrameInput) (s : State) : State := updateSampler (uiStep i s)

/-- The render loop `while(!stopRendering)` fed with the inputs of successive
frames; it ends when an iteration has set `stopRendering` or the inputs are
used up. -/
def renderLoop (is : List FrameInput) (s : State) : State :=
  match is with
  | [] => s
  | i :: rest => if s.stopRendering then s else renderLoop rest (frame i s)

/-- The program up to the render loop. -/
def afterInitialize : State := initializeScene State.start

/-- The environment writes new values into the four user parameters. -/
def State.setParams (s : State) (mag mini : Int) (anisotropy camera_pan : ℚ) : State :=
  { s with mag := mag, mini := mini, anisotropy := anisotropy, camera_pan := camera_pan }

/-- States the program can be in once `initialize` has run, when frames may
follow one another with any input and the parameter globals may hold any
values in between. -/
inductive Reachable : State → Prop where
  | init : Reachable afterInitialize
  | step (i : FrameInput) {s : State} : Reachable s → Reachable (frame i s)
  | params (mag mini : Int) (anisotropy camera_pan : ℚ) {s : State} :
      Reachable s → Reachable (s.setParams mag mini anisotropy camera_pan)

/-- What happens between two looks at the program: an iteration of the render
loop with its input, or the environment storing new values in the four user
parameters (any values, also selections outside the enumerated sets). -/
inductive LoopStep where
  | frame (i : FrameInput)
  | write (mag mini : Int) (anisotropy camera_pan : ℚ)

/-- The render loop `while(!stopRendering)` of `main` run over a list of
steps: a frame step executes the whole loop body (lines 326-404) unless
`stopRendering` is set, in which case the loop is left; a write step stores
the parameters. -/
def runSteps (steps : List LoopStep) (s : State) : State :=
  match steps with
  | [] => s
  | LoopStep.frame i :: rest => if s.stopRendering then s else runSteps rest (frame i s)
  | LoopStep.write mag mini a p :: rest => runSteps rest (s.setParams mag mini a p)

/-- The pairs `(mag, mini)` the two switches (lines 362, 386) read in the
iterations `runSteps` executes, oldest first: the selections held at the end
of each executed iteration's UI step. -/
def selectionsSeen (steps : List LoopStep) (s : State) : List (Int × Int) :=
  match steps with
  | [] => []
  | LoopStep.frame i :: rest =>
    if s.stopRendering then []
    else ((uiStep i s).mag, (uiStep i s).mini) :: selectionsSeen rest (frame i s)
  | LoopStep.write mag mini a p :: rest => selectionsSeen rest (s.setParams mag mini a p)

/-! ## The tables of the specification -/

/-- The magnification table of section 4.3 of the specification, by the index
of the radio button: Nearest, Linear. -/
def specMagFilter (sel : Int) : Option Int :=
  if sel = 0 then some GL_NEAREST
  else if sel = 1 then some GL_LINEAR
  else none

/-- The minification table of section 4.3 of the specification, by the index
of the radio button: Nearest, Linear, NearestMipNearest, NearestMipLinear,
LinearMipNearest, LinearMipLinear. -/
def specMinFilter (sel : Int) : Option Int :=
  if sel = 0 then some GL_NEAREST
  else if sel = 1 then some GL_LINEAR
  else if sel = 2 then some GL_NEAREST_MIPMAP_NEAREST
  else if sel = 3 then some GL_NEAREST_MIPMAP_LINEAR
  else if sel = 4 then some GL_LINEAR_MIPMAP_NEAREST
  else if sel = 5 then some GL_LINEAR_MIPMAP_LINEAR
  else none

/-- Clamping into `[1.0, 16.0]` as the specification describes it. -/
def specClampAnisotropy (a : ℚ) : ℚ := if a < 1 then 1 else if 16 < a then 16 else a

/-- The filter the specification assigns to the most recent selection of
`sels` (oldest first) that `table` knows, or `GL_NEAREST` when there is none. -/
def specHeld (table : Int → Option Int) (sels : List Int) : Int :=
  match sels.reverse.filterMap table with
  | f :: _ => f
  | [] => GL_NEAREST

/-- The billboard texture as `initialize` leaves it. -/
def billboardAtCreation : TexObj :=
  { wrapS := GL_CLAMP_TO_EDGE, wrapT := GL_CLAMP_TO_EDGE, magFilter := GL_LINEAR,
    minFilter := GL_LINEAR_MIPMAP_LINEAR, maxAnisotropy := 16,
    hasImage := true, hasMipmaps := true }

/-- What holds of the two textures from `initialize` on: distinct handles, the
billboard texture as created, the ground texture with its image, mipmaps and
wrap mode. -/
def TexturesIntact (s : State) : Prop :=
  s.texture ≠ s.texture2 ∧
  s.gl.tex s.texture2 = billboardAtCreation ∧
  (s.gl.tex s.texture).wrapS = GL_REPEAT ∧
  (s.gl.tex s.texture).wrapT = GL_REPEAT ∧
  (s.gl.tex s.texture).hasImage = true ∧
  (s.gl.tex s.texture).hasMipmaps = true

/-! ## Concrete inputs -/

/-- A frame in which the panel is opened with the key g and the third
minification button is pressed. -/
def FrameInput.pressMipNearest : FrameInput :=
  { events := [Event.keyUpG], width := 800, height := 600,
    ui := { GuiInput.idle with miniNearestMipNearest := true } }

/-- A state of the running program whose anisotropy parameter is 17. -/
def anisotropy17 : State := afterInitialize.setParams 1 5 17 0

/-- A state of the running program whose minification selection is 7 and
whose anisotropy is 4. -/
def miniSeven : State := afterInitialize.setParams 1 7 4 0

/-- Three frames: the panel is opened and GL_NEAREST_MIPMAP_NEAREST chosen,
an idle frame, then the anisotropy slider is moved to 4. -/
def threeFrames : List FrameInput :=
  [FrameInput.pressMipNearest, FrameInput.idle,
   { FrameInput.idle with ui := { GuiInput.idle with anisotropySlider := some 4 } }]

/-- A run with selections outside the enumerated sets: `(1, 3)` is stored
and a frame runs, then `(7, -2)` and a frame, then `(0, 9)` and a frame. -/
def strayRun : List LoopStep :=
  [LoopStep.write 1 3 16 0, LoopStep.frame FrameInput.idle,
   LoopStep.write 7 (-2) 16 0, LoopStep.frame FrameInput.idle,
   LoopStep.write 0 9 16 0, LoopStep.frame FrameInput.idle]

/-! ## Auxiliary facts -/

theorem writeSamplerParams_eq (a b : Int) (c : ℚ) (g : GLContext) :
    writeSamplerParams a b c g =
      { g with tex := fun m => if m = g.boundTex then
                  { g.tex g.boundTex with magFilter := a, minFilter := b, maxAnisotropy := c }
                else g.tex m } := by
  have h1 : ∀ v g, glTexParameteri GL_TEXTURE_MAG_FILTER v g =
      g.setTex g.boundTex { g.tex g.boundTex with magFilter := v } := fun _ _ => rfl
  have h2 : ∀ v g, glTexParameteri GL_TEXTURE_MIN_FILTER v g =
      g.setTex g.boundTex { g.tex g.boundTex with minFilter := v } := fun _ _ => rfl
  have h3 : ∀ v g, glTexParameterf GL_TEXTURE_MAX_ANISOTROPY_EXT v g =
      g.setTex g.boundTex { g.tex g.boundTex with maxAnisotropy := v } := fun _ _ => rfl
  simp only [writeSamplerParams, h1, h2, h3, GLContext.setTex]
  congr 1
  funext m
  by_cases hm : m = g.boundTex <;> simp [hm]

theorem applySamplerState_eq (t : Nat) (a b : Int) (c : ℚ) (g : GLContext) :
    applySamplerState t a b c g =
      { g with boundTex := t,
               tex := fun m => if m = t then
                  { g.tex t with magFilter := a, minFilter := b, maxAnisotropy := c }
                else g.tex m } := by
  simp [applySamplerState, writeSamplerParams_eq, glBindTexture]

theorem pollEvents_eq (evs : List Event) (s : State) :
    ∃ ui stop, pollEvents evs s = { s with showUI := ui, stopRendering := stop } := by
  induction evs generalizing s with
  | nil => exact ⟨s.showUI, s.stopRendering, rfl⟩
  | cons e rest ih =>
    obtain ⟨ui, stop, h⟩ := ih (handleEvent s e)
    refine ⟨ui, stop, ?_⟩
    show pollEvents rest (handleEvent s e) = _
    rw [h]
    cases e <;> rfl

theorem display_gl (w h : Int) (s : State) :
    (display w h s).gl.tex = s.gl.tex ∧ (display w h s).gl.boundTex = s.texture2 ∧
    (display w h s).gl.blend = true := by
  refine ⟨rfl, rfl, rfl⟩

theorem uiStep_keeps (i : FrameInput) (s : State) :
    (uiStep i s).texture = s.texture ∧ (uiStep i s).texture2 = s.texture2 ∧
    (uiStep i s).minMode = s.minMode ∧ (uiStep i s).maxMode = s.maxMode ∧
    (uiStep i s).gl.tex = s.gl.tex ∧ (uiStep i s).gl.boundTex = s.texture2 ∧
    (uiStep i s).stopRendering = (pollEvents i.events s).stopRendering := by
  obtain ⟨ui, stop, h⟩ := pollEvents_eq i.events s
  unfold uiStep
  rw [h]
  cases ui <;> exact ⟨rfl, rfl, rfl, rfl, rfl, rfl, rfl⟩

theorem radioButton_cases (pressed : Bool) (v b : Int) :
    radioButton pressed v b = v ∨ radioButton pressed v b = b := by
  cases pressed <;> simp [radioButton]

theorem gui_mag_range (u : GuiInput) (s : State) (h : s.mag = 0 ∨ s.mag = 1) :
    (gui u s).mag = 0 ∨ (gui u s).mag = 1 := by
  show radioButton u.magLinear (radioButton u.magNearest s.mag 0) 1 = 0 ∨
    radioButton u.magLinear (radioButton u.magNearest s.mag 0) 1 = 1
  cases u.magLinear <;> cases u.magNearest <;> simp [radioButton, h]

theorem gui_mini_range (u : GuiInput) (s : State) (h : 0 ≤ s.mini ∧ s.mini ≤ 5) :
    0 ≤ (gui u s).mini ∧ (gui u s).mini ≤ 5 := by
  show 0 ≤ radioButton u.miniLinearMipLinear (radioButton u.miniLinearMipNearest
      (radioButton u.miniNearestMipLinear (radioButton u.miniNearestMipNearest
      (radioButton u.miniLinear (radioButton u.miniNearest s.mini 0) 1) 2) 3) 4) 5 ∧
    radioButton u.miniLinearMipLinear (radioButton u.miniLinearMipNearest
      (radioButton u.miniNearestMipLinear (radioButton u.miniNearestMipNearest
      (radioButton u.miniLinear (radioButton u.miniNearest s.mini 0) 1) 2) 3) 4) 5 ≤ 5
  cases u.miniLinearMipLinear <;> cases u.miniLinearMipNearest <;>
    cases u.miniNearestMipLinear <;> cases u.miniNearestMipNearest <;>
    cases u.miniLinear <;> cases u.miniNearest <;> simp [radioButton, h]

theorem uiStep_range (i : FrameInput) (s : State) :
    ((s.mag = 0 ∨ s.mag = 1) → ((uiStep i s).mag = 0 ∨ (uiStep i s).mag = 1)) ∧
    ((0 ≤ s.mini ∧ s.mini ≤ 5) → (0 ≤ (uiStep i s).mini ∧ (uiStep i s).mini ≤ 5)) := by
  obtain ⟨ui, stop, h⟩ := pollEvents_eq i.events s
  unfold uiStep
  rw [h]
  cases ui
  · exact ⟨fun hm => hm, fun hm => hm⟩
  · exact ⟨fun hm => gui_mag_range _ _ hm, fun hm => gui_mini_range _ _ hm⟩

theorem minSwitch_spec (mini prev : Int) (h : 0 ≤ mini ∧ mini ≤ 5) :
    specMinFilter mini = some (minSwitch mini prev) := by
  obtain ⟨h0, h5⟩ := h
  interval_cases mini <;> rfl

theorem magSwitch_spec (mag prev : Int) (h : mag = 0 ∨ mag = 1) :
    specMagFilter mag = some (magSwitch mag prev) := by
  rcases h with h | h <;> subst h <;> rfl

theorem frame_ground (i : FrameInput) (s : State) :
    (frame i s).gl.tex s.texture =
      { s.gl.tex s.texture with
          magFilter := magSwitch (uiStep i s).mag s.maxMode,
          minFilter := minSwitch (uiStep i s).mini s.minMode,
          maxAnisotropy := (uiStep i s).anisotropy } := by
  obtain ⟨h1, -, h3, h4, h5, -, -⟩ := uiStep_keeps i s
  simp [frame, updateSampler, applySamplerState_eq, h1, h3, h4, h5]

theorem frame_other (i : FrameInput) (s : State) (n : Nat) (hn : n ≠ s.texture) :
    (frame i s).gl.tex n = s.gl.tex n := by
  obtain ⟨h1, -, -, -, h5, -, -⟩ := uiStep_keeps i s
  simp [frame, updateSampler, applySamplerState_eq, h1, h5, hn]

theorem frame_fields (i : FrameInput) (s : State) :
    (frame i s).texture = s.texture ∧ (frame i s).texture2 = s.texture2 ∧
    (frame i s).maxMode = magSwitch (uiStep i s).mag s.maxMode ∧
    (frame i s).minMode = minSwitch (uiStep i s).mini s.minMode ∧
    (frame i s).stopRendering = (pollEvents i.events s).stopRendering := by
  obtain ⟨h1, h2, h3, h4, -, -, h7⟩ := uiStep_keeps i s
  simp [frame, updateSampler, h1, h2, h3, h4, h7]

theorem texturesIntact_afterInitialize : TexturesIntact afterInitialize := by
  refine ⟨by decide, by decide, by decide, by decide, by decide, by decide⟩

theorem texturesIntact_frame (i : FrameInput) (s : State) (h : TexturesIntact s) :
    TexturesIntact (frame i s) := by
  obtain ⟨hd, hb, h1, h2, h3, h4⟩ := h
  obtain ⟨e1, e2, -, -, -⟩ := frame_fields i s
  unfold TexturesIntact
  rw [e1, e2, frame_ground, frame_other i s s.texture2 (Ne.symm hd)]
  exact ⟨hd, hb, h1, h2, h3, h4⟩

theorem texturesIntact_reachable (s : State) (h : Reachable s) : TexturesIntact s := by
  induction h with
  | init => exact texturesIntact_afterInitialize
  | step i _ ih => exact texturesIntact_frame i _ ih
  | params mag mini a p _ ih => exact ih

theorem reachable_renderLoop (is : List FrameInput) (s : State) (h : Reachable s) :
    Reachable (renderLoop is s) := by
  induction is generalizing s with
  | nil => exact h
  | cons i rest ih =>
    unfold renderLoop
    by_cases hs : s.stopRendering = true
    · simp [hs, h]
    · simp [hs]
      exact ih _ (Reachable.step i h)

theorem renderLoop_handles (is : List FrameInput) (s : State) :
    (renderLoop is s).texture = s.texture ∧ (renderLoop is s).texture2 = s.texture2 := by
  induction is generalizing s with
  | nil => exact ⟨rfl, rfl⟩
  | cons i rest ih =>
    unfold renderLoop
    by_cases hs : s.stopRendering = true
    · simp [hs]
    · simp [hs]
      obtain ⟨e1, e2, -, -, -⟩ := frame_fields i s
      rw [(ih (frame i s)).1, (ih (frame i s)).2, e1, e2]
      exact ⟨rfl, rfl⟩

theorem updateSampler_ground (s : State) :
    (updateSampler s).gl.tex s.texture =
      { s.gl.tex s.texture with
          magFilter := magSwitch s.mag s.maxMode,
          minFilter := minSwitch s.mini s.minMode,
          maxAnisotropy := s.anisotropy } := by
  simp [updateSampler, applySamplerState_eq]

theorem updateSampler_held (s : State) (t : Nat) (ht : s.texture = t) :
    ((updateSampler s).gl.tex t).magFilter = (updateSampler s).maxMode ∧
    ((updateSampler s).gl.tex t).minFilter = (updateSampler s).minMode := by
  subst ht
  rw [updateSampler_ground]
  exact ⟨rfl, rfl⟩

theorem minSwitch_getD (m prev : Int) : minSwitch m prev = (specMinFilter m).getD prev := by
  unfold minSwitch specMinFilter
  split_ifs <;> rfl

theorem magSwitch_getD (m prev : Int) : magSwitch m prev = (specMagFilter m).getD prev := by
  unfold magSwitch specMagFilter
  split_ifs <;> rfl

theorem minSwitch_idem (m prev : Int) : minSwitch m (minSwitch m prev) = minSwitch m prev := by
  unfold minSwitch
  split_ifs <;> rfl

theorem magSwitch_idem (m prev : Int) : magSwitch m (magSwitch m prev) = magSwitch m prev := by
  unfold magSwitch
  split_ifs <;> rfl

/-! ## The filter mapping -/

/-- C1: the two switches of the render loop compute the tables of section 4.3.
Selections 0..5 give GL_NEAREST, GL_LINEAR, GL_NEAREST_MIPMAP_NEAREST,
GL_NEAREST_MIPMAP_LINEAR, GL_LINEAR_MIPMAP_NEAREST, GL_LINEAR_MIPMAP_LINEAR,
which are pairwise distinct; magnification selections 0 and 1 give GL_NEAREST
and GL_LINEAR; this holds whatever mode was held before (`prevMin`, `prevMag`),
the per-frame update stores exactly the switch results as the held modes
and as the filters of the ground texture, and each radio button of the panel
sets the selection to its position in that order. -/
theorem C1_filter_mapping_computes_tables (prevMin prevMag : Int) (s : State) :
    minSwitch 0 prevMin = GL_NEAREST ∧
    minSwitch 1 prevMin = GL_LINEAR ∧
    minSwitch 2 prevMin = GL_NEAREST_MIPMAP_NEAREST ∧
    minSwitch 3 prevMin = GL_NEAREST_MIPMAP_LINEAR ∧
    minSwitch 4 prevMin = GL_LINEAR_MIPMAP_NEAREST ∧
    minSwitch 5 prevMin = GL_LINEAR_MIPMAP_LINEAR ∧
    [GL_NEAREST, GL_LINEAR, GL_NEAREST_MIPMAP_NEAREST, GL_NEAREST_MIPMAP_LINEAR,
      GL_LINEAR_MIPMAP_NEAREST, GL_LINEAR_MIPMAP_LINEAR].Nodup ∧
    magSwitch 0 prevMag = GL_NEAREST ∧
    magSwitch 1 prevMag = GL_LINEAR ∧
    (updateSampler s).minMode = minSwitch s.mini s.minMode ∧
    (updateSampler s).maxMode = magSwitch s.mag s.maxMode ∧
    ((updateSampler s).gl.tex s.texture).minFilter = minSwitch s.mini s.minMode ∧
    ((updateSampler s).gl.tex s.texture).magFilter = magSwitch s.mag s.maxMode ∧
    (gui { GuiInput.idle with magNearest := true } s).mag = 0 ∧
    (gui { GuiInput.idle with magLinear := true } s).mag = 1 ∧
    (gui { GuiInput.idle with miniNearest := true } s).mini = 0 ∧
    (gui { GuiInput.idle with miniLinear := true } s).mini = 1 ∧
    (gui { GuiInput.idle with miniNearestMipNearest := true } s).mini = 2 ∧
    (gui { GuiInput.idle with miniNearestMipLinear := true } s).mini = 3 ∧
    (gui { GuiInput.idle with miniLinearMipNearest := true } s).mini = 4 ∧
    (gui { GuiInput.idle with miniLinearMipLinear := true } s).mini = 5 := by
  refine ⟨rfl, rfl, rfl, rfl, rfl, rfl, by decide, rfl, rfl, rfl, rfl, ?_, ?_,
    rfl, rfl, rfl, rfl, rfl, rfl, rfl, rfl⟩ <;>
    rw [updateSampler_ground]

/-- C2: from a state the program can reach in which `mag` is 0 or 1 and `mini`
is between 0 and 5, one iteration of the render loop leaves the ground
texture with the filters the tables of section 4.3 give for the selections
held at the end of the UI step.  The draw pass leaves the billboard texture
bound, a different texture; the parameters are written after `glBindTexture`
has made the ground texture the bound one, and the billboard texture keeps
its parameters. -/
theorem C2_frame_applies_latest_selection (i : FrameInput) (s : State) (hr : Reachable s)
    (hmag : s.mag = 0 ∨ s.mag = 1) (hmini : 0 ≤ s.mini ∧ s.mini ≤ 5) :
    specMagFilter (uiStep i s).mag = some ((frame i s).gl.tex s.texture).magFilter ∧
    specMinFilter (uiStep i s).mini = some ((frame i s).gl.tex s.texture).minFilter ∧
    (uiStep i s).gl.boundTex = s.texture2 ∧
    s.texture2 ≠ s.texture ∧
    (frame i s).gl = writeSamplerParams (frame i s).maxMode (frame i s).minMode
      (uiStep i s).anisotropy (glBindTexture s.texture (uiStep i s).gl) ∧
    (glBindTexture s.texture (uiStep i s).gl).boundTex = s.texture ∧
    (frame i s).gl.tex s.texture2 = s.gl.tex s.texture2 := by
  have hd := (texturesIntact_reachable s hr).1
  obtain ⟨h1, -, h3, h4, -, h6, -⟩ := uiStep_keeps i s
  refine ⟨?_, ?_, h6, Ne.symm hd, ?_, rfl, frame_other i s _ (Ne.symm hd)⟩
  · rw [frame_ground]
    exact magSwitch_spec _ _ ((uiStep_range i s).1 hmag)
  · rw [frame_ground]
    exact minSwitch_spec _ _ ((uiStep_range i s).2 hmini)
  · simp only [frame, updateSampler, applySamplerState, h1]

/-- C2 at the first frame of the program, the user opening the panel and
choosing GL_NEAREST_MIPMAP_NEAREST: the ground texture gets that filter. -/
theorem C2_frame_applies_latest_selection_witness :
    Reachable afterInitialize ∧
    (afterInitialize.mag = 0 ∨ afterInitialize.mag = 1) ∧
    (0 ≤ afterInitialize.mini ∧ afterInitialize.mini ≤ 5) ∧
    (uiStep FrameInput.pressMipNearest afterInitialize).mini = 2 ∧
    specMinFilter (uiStep FrameInput.pressMipNearest afterInitialize).mini =
      some ((frame FrameInput.pressMipNearest afterInitialize).gl.tex
        afterInitialize.texture).minFilter :=
  ⟨Reachable.init, by decide, by decide, by decide,
    (C2_frame_applies_latest_selection FrameInput.pressMipNearest afterInitialize
      Reachable.init (by decide) (by decide)).2.1⟩

/-! ## Anisotropy -/

/-- C3, counterexample: with 17 held as anisotropy, a frame hands 17 to the
ground texture, while clamping into [1.0, 16.0] would give 16. -/
theorem C3_anisotropy_not_clamped :
    ((frame FrameInput.idle anisotropy17).gl.tex anisotropy17.texture).maxAnisotropy = 17 ∧
    specClampAnisotropy anisotropy17.anisotropy = 16 ∧
    ((frame FrameInput.idle anisotropy17).gl.tex anisotropy17.texture).maxAnisotropy ≠
      specClampAnisotropy anisotropy17.anisotropy := by
  refine ⟨by decide, by decide, by decide⟩

/-- C3, amended: the per-frame sampler update hands the anisotropy held in the
parameter state to the ground texture unchanged, whatever its value; for a
value between 1.0 and 16.0 that is also the clamped value.  In a whole frame
the value is the one held at the end of the UI step. -/
theorem C3_anisotropy_passes_through (s : State) :
    ((updateSampler s).gl.tex s.texture).maxAnisotropy = s.anisotropy ∧
    ((1 ≤ s.anisotropy ∧ s.anisotropy ≤ 16) →
      ((updateSampler s).gl.tex s.texture).maxAnisotropy = specClampAnisotropy s.anisotropy) ∧
    (∀ i : FrameInput,
      ((frame i s).gl.tex s.texture).maxAnisotropy = (uiStep i s).anisotropy) := by
  refine ⟨by rw [updateSampler_ground], ?_, fun i => by rw [frame_ground]⟩
  rintro ⟨h1, h16⟩
  rw [updateSampler_ground]
  unfold specClampAnisotropy
  rw [if_neg (not_lt.mpr h1), if_neg (not_lt.mpr h16)]

/-! ## Selections outside the enumerated sets -/

/-- C4, counterexample: with the minification selection 7 the frame runs to
its end, the loop is not stopped, and the sampler state is applied: the ground
texture goes from GL_LINEAR_MIPMAP_LINEAR / 16 to GL_NEAREST / 4. -/
theorem C4_out_of_range_still_applied :
    miniSeven.mini = 7 ∧
    (miniSeven.gl.tex miniSeven.texture).minFilter = GL_LINEAR_MIPMAP_LINEAR ∧
    (miniSeven.gl.tex miniSeven.texture).maxAnisotropy = 16 ∧
    ((frame FrameInput.idle miniSeven).gl.tex miniSeven.texture).minFilter = GL_NEAREST ∧
    ((frame FrameInput.idle miniSeven).gl.tex miniSeven.texture).maxAnisotropy = 4 ∧
    (frame FrameInput.idle miniSeven).stopRendering = false := by
  refine ⟨by decide, by decide, by decide, by decide, by decide, by decide⟩

/-- C4, amended: when a selection is outside its enumerated set as the
switches are reached, the frame completes like any other: the held mode of an
out-of-range selection keeps its previous value, the held modes and the
anisotropy are written to the ground texture, and `stopRendering` is what the
events of the frame made it. -/
theorem C4_out_of_range_keeps_mode (i : FrameInput) (s : State)
    (h : ¬ ((uiStep i s).mag = 0 ∨ (uiStep i s).mag = 1) ∨
         ¬ (0 ≤ (uiStep i s).mini ∧ (uiStep i s).mini ≤ 5)) :
    (¬ ((uiStep i s).mag = 0 ∨ (uiStep i s).mag = 1) → (frame i s).maxMode = s.maxMode) ∧
    (¬ (0 ≤ (uiStep i s).mini ∧ (uiStep i s).mini ≤ 5) → (frame i s).minMode = s.minMode) ∧
    ((frame i s).maxMode = s.maxMode ∨ (frame i s).minMode = s.minMode) ∧
    ((frame i s).gl.tex s.texture).magFilter = (frame i s).maxMode ∧
    ((frame i s).gl.tex s.texture).minFilter = (frame i s).minMode ∧
    ((frame i s).gl.tex s.texture).maxAnisotropy = (uiStep i s).anisotropy ∧
    (frame i s).stopRendering = (pollEvents i.events s).stopRendering := by
  obtain ⟨-, -, e3, e4, e5⟩ := frame_fields i s
  have hmag : ¬ ((uiStep i s).mag = 0 ∨ (uiStep i s).mag = 1) → (frame i s).maxMode = s.maxMode := by
    intro hm
    rw [e3]
    unfold magSwitch
    rw [if_neg (fun h0 => hm (Or.inl h0)), if_neg (fun h1 => hm (Or.inr h1))]
  have hmini : ¬ (0 ≤ (uiStep i s).mini ∧ (uiStep i s).mini ≤ 5) →
      (frame i s).minMode = s.minMode := by
    intro hm
    rw [e4]
    unfold minSwitch
    split_ifs <;> first | rfl | (exfalso; apply hm; omega)
  refine ⟨hmag, hmini, ?_, ?_, ?_, ?_, e5⟩
  · rcases h with h | h
    · exact Or.inl (hmag h)
    · exact Or.inr (hmini h)
  · rw [frame_ground, e3]
  · rw [frame_ground, e4]
  · rw [frame_ground]

/-- C4 amended, at the state with minification selection 7: the held mode
stays GL_NEAREST. -/
theorem C4_out_of_range_keeps_mode_witness :
    (¬ ((uiStep FrameInput.idle miniSeven).mag = 0 ∨ (uiStep FrameInput.idle miniSeven).mag = 1) ∨
      ¬ (0 ≤ (uiStep FrameInput.idle miniSeven).mini ∧
          (uiStep FrameInput.idle miniSeven).mini ≤ 5)) ∧
    (frame FrameInput.idle miniSeven).minMode = miniSeven.minMode ∧
    ((frame FrameInput.idle miniSeven).gl.tex miniSeven.texture).minFilter =
      (frame FrameInput.idle miniSeven).minMode :=
  ⟨Or.inr (by decide),
    ((C4_out_of_range_keeps_mode FrameInput.idle miniSeven (Or.inr (by decide))).2.1
      (by decide)),
    (C4_out_of_range_keeps_mode FrameInput.idle miniSeven (Or.inr (by decide))).2.2.2.2.1⟩

/-! ## Initial parameter state -/

/-- C5, counterexample: the initial parameter state is not the one with
magnification selection 0; `mag` starts as 1. -/
theorem C5_initial_mag_is_not_nearest :
    ¬ (State.start.mag = 0 ∧ State.start.mini = 5 ∧ State.start.anisotropy = 16 ∧
        State.start.camera_pan = 0 ∧ State.start.showUI = false) := by
  decide

/-- C5, amended: at process start the magnification selection is 1 (the radio
button GL_LINEAR), the minification selection is 5 (GL_LINEAR_MIPMAP_LINEAR),
anisotropy is 16.0, the camera pan 0.0 and the panel hidden; `initialize`
leaves these values as they are, so the loop starts with them. -/
theorem C5_initial_parameter_state :
    State.start.mag = 1 ∧ State.start.mini = 5 ∧ State.start.anisotropy = 16 ∧
    State.start.camera_pan = 0 ∧ State.start.showUI = false ∧
    afterInitialize.mag = 1 ∧ afterInitialize.mini = 5 ∧ afterInitialize.anisotropy = 16 ∧
    afterInitialize.camera_pan = 0 ∧ afterInitialize.showUI = false ∧
    specMagFilter State.start.mag = some GL_LINEAR ∧
    specMinFilter State.start.mini = some GL_LINEAR_MIPMAP_LINEAR := by
  refine ⟨rfl, rfl, rfl, rfl, rfl, rfl, rfl, rfl, rfl, rfl, rfl, rfl⟩

/-! ## Draw order and blending -/

theorem display_draws (w h : Int) (s : State) :
    (display w h s).gl.draws =
      [{ vao := s.vertexArrayObject, tex := s.texture, program := s.shaderProgram,
         blend := s.gl.blend, blendSrc := s.gl.blendSrc, blendDst := s.gl.blendDst,
         depthTest := false, count := 6 },
       { vao := s.vertexArrayObject2, tex := s.texture2, program := s.shaderProgram,
         blend := true, blendSrc := GL_SRC_ALPHA, blendDst := GL_ONE_MINUS_SRC_ALPHA,
         depthTest := false, count := 6 }] := rfl

theorem frame_leaves_blend_enabled (i : FrameInput) (s : State) :
    (frame i s).gl.blend = true := by
  obtain ⟨ui, stop, h⟩ := pollEvents_eq i.events s
  simp only [frame, updateSampler, applySamplerState_eq, uiStep, h]
  cases ui <;> rfl

/-- C6, the code at two successive idle frames after `initialize`: in the
first frame the ground quad (vertex array 1, texture 1) is drawn unblended
and the billboard quad (vertex array 2, texture 2) after it with blending
(GL_SRC_ALPHA, GL_ONE_MINUS_SRC_ALPHA); in the second frame the order is the
same but blending is still enabled when the ground quad is drawn. -/
theorem C6_second_frame_draws_ground_blended :
    (renderLoop [FrameInput.idle] afterInitialize).gl.draws.map
        (fun d => (d.vao, d.tex, d.blend, d.blendSrc, d.blendDst)) =
      [(1, 1, false, GL_ONE, GL_ZERO), (2, 2, true, GL_SRC_ALPHA, GL_ONE_MINUS_SRC_ALPHA)] ∧
    (renderLoop [FrameInput.idle, FrameInput.idle] afterInitialize).gl.draws.map
        (fun d => (d.vao, d.tex, d.blend, d.blendSrc, d.blendDst)) =
      [(1, 1, true, GL_SRC_ALPHA, GL_ONE_MINUS_SRC_ALPHA),
       (2, 2, true, GL_SRC_ALPHA, GL_ONE_MINUS_SRC_ALPHA)] := by
  refine ⟨by decide, by decide⟩

/-! ## Texture fields the frames leave alone -/

/-- C7: in every state the program can reach, and after any further run of
the render loop from there, the billboard texture is exactly as created
(GL_LINEAR, GL_LINEAR_MIPMAP_LINEAR, anisotropy 16.0, wrap GL_CLAMP_TO_EDGE,
image and mipmaps in place) and the ground texture still has wrap GL_REPEAT,
its image and its mipmaps; so of the fields of the two textures only the
ground texture's mag filter, min filter and anisotropy can differ. -/
theorem C7_only_ground_filters_change (s : State) (hr : Reachable s) (is : List FrameInput) :
    (renderLoop is s).gl.tex s.texture2 =
      { wrapS := GL_CLAMP_TO_EDGE, wrapT := GL_CLAMP_TO_EDGE, magFilter := GL_LINEAR,
        minFilter := GL_LINEAR_MIPMAP_LINEAR, maxAnisotropy := 16,
        hasImage := true, hasMipmaps := true } ∧
    ((renderLoop is s).gl.tex s.texture).wrapS = GL_REPEAT ∧
    ((renderLoop is s).gl.tex s.texture).wrapT = GL_REPEAT ∧
    ((renderLoop is s).gl.tex s.texture).hasImage = true ∧
    ((renderLoop is s).gl.tex s.texture).hasMipmaps = true ∧
    { (renderLoop is s).gl.tex s.texture with
        magFilter := (s.gl.tex s.texture).magFilter,
        minFilter := (s.gl.tex s.texture).minFilter,
        maxAnisotropy := (s.gl.tex s.texture).maxAnisotropy } = s.gl.tex s.texture := by
  obtain ⟨-, hb, h1, h2, h3, h4⟩ := texturesIntact_reachable _ (reachable_renderLoop is s hr)
  obtain ⟨-, -, g1, g2, g3, g4⟩ := texturesIntact_reachable s hr
  obtain ⟨e1, e2⟩ := renderLoop_handles is s
  rw [e1] at h1 h2 h3 h4
  rw [e2] at hb
  refine ⟨hb, h1, h2, h3, h4, ?_⟩
  cases hx : (renderLoop is s).gl.tex s.texture
  cases hy : s.gl.tex s.texture
  simp only [hx, hy] at h1 h2 h3 h4 g1 g2 g3 g4
  simp [h1, h2, h3, h4, g1, g2, g3, g4]

/-- C7 for the run `threeFrames` from the state after `initialize`: the
ground texture's filters did change, the billboard texture is as created. -/
theorem C7_only_ground_filters_change_witness :
    Reachable afterInitialize ∧
    ((renderLoop threeFrames afterInitialize).gl.tex afterInitialize.texture).minFilter =
      GL_NEAREST_MIPMAP_NEAREST ∧
    ((renderLoop threeFrames afterInitialize).gl.tex afterInitialize.texture).maxAnisotropy = 4 ∧
    (renderLoop threeFrames afterInitialize).gl.tex afterInitialize.texture2 =
      { wrapS := GL_CLAMP_TO_EDGE, wrapT := GL_CLAMP_TO_EDGE, magFilter := GL_LINEAR,
        minFilter := GL_LINEAR_MIPMAP_LINEAR, maxAnisotropy := 16,
        hasImage := true, hasMipmaps := true } :=
  ⟨Reachable.init, by decide, by decide,
    (C7_only_ground_filters_change afterInitialize Reachable.init threeFrames).1⟩

/-! ## Idempotence of the sampler update -/

/-- C8: writing the sampler state twice in a row with the same texture, mag
filter, min filter and anisotropy leaves the OpenGL context, and so every
texture, exactly as writing it once; the same holds of the whole per-frame
update (switches and writes) on the program state. -/
theorem C8_sampler_update_idempotent (t : Nat) (magFilter minFilter : Int) (anisotropy : ℚ)
    (g : GLContext) (s : State) :
    applySamplerState t magFilter minFilter anisotropy
        (applySamplerState t magFilter minFilter anisotropy g) =
      applySamplerState t magFilter minFilter anisotropy g ∧
    updateSampler (updateSampler s) = updateSampler s := by
  have key : ∀ (t : Nat) (a b : Int) (c : ℚ) (g : GLContext),
      applySamplerState t a b c (applySamplerState t a b c g) = applySamplerState t a b c g := by
    intro t a b c g
    rw [applySamplerState_eq, applySamplerState_eq]
    simp only [GLContext.mk.injEq, true_and, and_true]
    funext m
    by_cases hm : m = t <;> simp [hm]
  refine ⟨key _ _ _ _ _, ?_⟩
  unfold updateSampler
  simp only [minSwitch_idem, magSwitch_idem, key]

/-! ## Camera position -/

/-- C9: for every pan value `p`, every window size and every other content of
the state (filter selections included), `display` uploads the camera position
`(p, 10, 0)`; so `(0, 10, 0)` for pan 0.0 and `(1, 10, 0)` for pan 1.0.  In a
frame the pan is the one held when the frame starts, as `display` runs before
the panel. -/
theorem C9_camera_position (p : ℚ) (w h : Int) (s : State) :
    (display w h { s with camera_pan := p }).gl.cameraPosition = (p, 10, 0) ∧
    (display w h { s with camera_pan := 0 }).gl.cameraPosition = (0, 10, 0) ∧
    (display w h { s with camera_pan := 1 }).gl.cameraPosition = (1, 10, 0) ∧
    (∀ i : FrameInput, (frame i { s with camera_pan := p }).gl.cameraPosition = (p, 10, 0)) := by
  refine ⟨rfl, rfl, rfl, fun i => ?_⟩
  obtain ⟨ui, stop, h⟩ := pollEvents_eq i.events { s with camera_pan := p }
  simp only [frame, updateSampler, applySamplerState_eq, uiStep, h]
  cases ui <;> rfl

/-! ## Held modes over many frames -/

theorem specHeld_snoc (table : Int → Option Int) (sels : List Int) (x : Int) :
    specHeld table (sels ++ [x]) = (table x).getD (specHeld table sels) := by
  unfold specHeld
  rw [List.reverse_append, List.reverse_singleton, List.singleton_append,
    List.filterMap_cons]
  cases table x <;> rfl

theorem foldl_magSwitch_specHeld (sels : List (Int × Int)) :
    sels.foldl (fun prev sel => magSwitch sel.1 prev) GL_NEAREST =
      specHeld specMagFilter (sels.map Prod.fst) := by
  induction sels using List.reverseRecOn with
  | nil => rfl
  | append_singleton front x ih =>
    rw [List.foldl_append, List.map_append, List.map_singleton, specHeld_snoc, ← ih,
      ← magSwitch_getD]
    rfl

theorem foldl_minSwitch_specHeld (sels : List (Int × Int)) :
    sels.foldl (fun prev sel => minSwitch sel.2 prev) GL_NEAREST =
      specHeld specMinFilter (sels.map Prod.snd) := by
  induction sels using List.reverseRecOn with
  | nil => rfl
  | append_singleton front x ih =>
    rw [List.foldl_append, List.map_append, List.map_singleton, specHeld_snoc, ← ih,
      ← minSwitch_getD]
    rfl

theorem magSwitch_valid (m prev : Int) (h : prev = GL_NEAREST ∨ prev = GL_LINEAR) :
    magSwitch m prev = GL_NEAREST ∨ magSwitch m prev = GL_LINEAR := by
  unfold magSwitch
  split_ifs
  · exact Or.inl rfl
  · exact Or.inr rfl
  · exact h

theorem minSwitch_valid (m prev : Int)
    (h : prev ∈ [GL_NEAREST, GL_LINEAR, GL_NEAREST_MIPMAP_NEAREST, GL_NEAREST_MIPMAP_LINEAR,
      GL_LINEAR_MIPMAP_NEAREST, GL_LINEAR_MIPMAP_LINEAR]) :
    minSwitch m prev ∈ [GL_NEAREST, GL_LINEAR, GL_NEAREST_MIPMAP_NEAREST,
      GL_NEAREST_MIPMAP_LINEAR, GL_LINEAR_MIPMAP_NEAREST, GL_LINEAR_MIPMAP_LINEAR] := by
  unfold minSwitch
  split_ifs <;> first | exact h | simp

theorem reachable_modes_valid (s : State) (h : Reachable s) :
    (s.maxMode = GL_NEAREST ∨ s.maxMode = GL_LINEAR) ∧
    s.minMode ∈ [GL_NEAREST, GL_LINEAR, GL_NEAREST_MIPMAP_NEAREST, GL_NEAREST_MIPMAP_LINEAR,
      GL_LINEAR_MIPMAP_NEAREST, GL_LINEAR_MIPMAP_LINEAR] := by
  induction h with
  | init => exact ⟨Or.inl rfl, by decide⟩
  | step i _ ih =>
    obtain ⟨-, -, e3, e4, -⟩ := frame_fields i _
    rw [e3, e4]
    exact ⟨magSwitch_valid _ _ ih.1, minSwitch_valid _ _ ih.2⟩
  | params mag mini a p _ ih => exact ih

theorem reachable_runSteps (steps : List LoopStep) (s : State) (h : Reachable s) :
    Reachable (runSteps steps s) := by
  induction steps generalizing s with
  | nil => exact h
  | cons st rest ih =>
    cases st with
    | frame i =>
      unfold runSteps
      by_cases hs : s.stopRendering = true
      · rw [if_pos hs]; exact h
      · rw [if_neg hs]; exact ih _ (Reachable.step i h)
    | write mag mini a p =>
      unfold runSteps
      exact ih _ (Reachable.params mag mini a p h)

theorem runSteps_modes (steps : List LoopStep) (s : State) :
    (runSteps steps s).maxMode =
      (selectionsSeen steps s).foldl (fun prev sel => magSwitch sel.1 prev) s.maxMode ∧
    (runSteps steps s).minMode =
      (selectionsSeen steps s).foldl (fun prev sel => minSwitch sel.2 prev) s.minMode ∧
    (runSteps steps s).texture = s.texture := by
  induction steps generalizing s with
  | nil => exact ⟨rfl, rfl, rfl⟩
  | cons st rest ih =>
    cases st with
    | frame i =>
      unfold runSteps selectionsSeen
      by_cases hs : s.stopRendering = true
      · rw [if_pos hs, if_pos hs]; exact ⟨rfl, rfl, rfl⟩
      · rw [if_neg hs, if_neg hs]
        obtain ⟨e1, -, e3, e4, -⟩ := frame_fields i s
        obtain ⟨h1, h2, h3⟩ := ih (frame i s)
        rw [h1, h2, h3, e1, e3, e4]
        exact ⟨rfl, rfl, rfl⟩
    | write mag mini a p =>
      unfold runSteps selectionsSeen
      exact ih (s.setParams mag mini a p)

theorem frame_applies_held (i : FrameInput) (s : State) :
    ((frame i s).gl.tex (frame i s).texture).magFilter = (frame i s).maxMode ∧
    ((frame i s).gl.tex (frame i s).texture).minFilter = (frame i s).minMode := by
  obtain ⟨e1, -, e3, e4, -⟩ := frame_fields i s
  rw [e1, frame_ground, e3, e4]
  exact ⟨rfl, rfl⟩

theorem runSteps_keeps_applied (steps : List LoopStep) (s : State)
    (h : (s.gl.tex s.texture).magFilter = s.maxMode ∧
         (s.gl.tex s.texture).minFilter = s.minMode) :
    ((runSteps steps s).gl.tex (runSteps steps s).texture).magFilter =
        (runSteps steps s).maxMode ∧
    ((runSteps steps s).gl.tex (runSteps steps s).texture).minFilter =
        (runSteps steps s).minMode := by
  induction steps generalizing s with
  | nil => exact h
  | cons st rest ih =>
    cases st with
    | frame i =>
      unfold runSteps
      by_cases hs : s.stopRendering = true
      · rw [if_pos hs]; exact h
      · rw [if_neg hs]; exact ih _ (frame_applies_held i s)
    | write mag mini a p =>
      unfold runSteps
      exact ih (s.setParams mag mini a p) h

theorem runSteps_applied (steps : List LoopStep) (s : State)
    (h : selectionsSeen steps s ≠ []) :
    ((runSteps steps s).gl.tex (runSteps steps s).texture).magFilter =
        (runSteps steps s).maxMode ∧
    ((runSteps steps s).gl.tex (runSteps steps s).texture).minFilter =
        (runSteps steps s).minMode := by
  induction steps generalizing s with
  | nil => exact absurd rfl h
  | cons st rest ih =>
    cases st with
    | frame i =>
      unfold selectionsSeen at h
      unfold runSteps
      by_cases hs : s.stopRendering = true
      · rw [if_pos hs] at h; exact absurd rfl h
      · rw [if_neg hs]; exact runSteps_keeps_applied rest _ (frame_applies_held i s)
    | write mag mini a p =>
      unfold selectionsSeen at h
      unfold runSteps
      exact ih (s.setParams mag mini a p) h

theorem renderLoop_eq_runSteps (is : List FrameInput) (s : State) :
    renderLoop is s = runSteps (is.map LoopStep.frame) s := by
  induction is generalizing s with
  | nil => rfl
  | cons i rest ih =>
    unfold renderLoop
    rw [List.map_cons]
    unfold runSteps
    by_cases hs : s.stopRendering = true
    · rw [if_pos hs, if_pos hs]
    · rw [if_neg hs, if_neg hs]; exact ih (frame i s)

/-- C10: run the render loop from the state after `initialize` (held modes
GL_NEAREST / GL_NEAREST) over any list of steps, each a whole iteration of
the loop body with any input or a write of any integers into `mag` and `mini`
(and any values into the two float parameters).  The state reached is a
reachable one, and in every reachable state the held mag mode is GL_NEAREST
or GL_LINEAR and the held min mode one of the six min filters.  In any frame
from any state, a selection that is outside its set when the switches are
reached leaves the held mode as it was.  After the run the held modes are the
table entries of the most recent in-range selections the switches have read,
GL_NEAREST where there was none, and once a frame has run these are the
filters of the ground texture. -/
theorem C10_held_modes_always_valid (steps : List LoopStep) :
    Reachable (runSteps steps afterInitialize) ∧
    (∀ s : State, Reachable s →
      (s.maxMode = GL_NEAREST ∨ s.maxMode = GL_LINEAR) ∧
      s.minMode ∈ [GL_NEAREST, GL_LINEAR, GL_NEAREST_MIPMAP_NEAREST, GL_NEAREST_MIPMAP_LINEAR,
        GL_LINEAR_MIPMAP_NEAREST, GL_LINEAR_MIPMAP_LINEAR]) ∧
    ((runSteps steps afterInitialize).maxMode = GL_NEAREST ∨
      (runSteps steps afterInitialize).maxMode = GL_LINEAR) ∧
    (runSteps steps afterInitialize).minMode ∈
      [GL_NEAREST, GL_LINEAR, GL_NEAREST_MIPMAP_NEAREST, GL_NEAREST_MIPMAP_LINEAR,
        GL_LINEAR_MIPMAP_NEAREST, GL_LINEAR_MIPMAP_LINEAR] ∧
    (∀ (i : FrameInput) (s : State), ¬ ((uiStep i s).mag = 0 ∨ (uiStep i s).mag = 1) →
      (frame i s).maxMode = s.maxMode) ∧
    (∀ (i : FrameInput) (s : State), ¬ (0 ≤ (uiStep i s).mini ∧ (uiStep i s).mini ≤ 5) →
      (frame i s).minMode = s.minMode) ∧
    (runSteps steps afterInitialize).maxMode =
      specHeld specMagFilter ((selectionsSeen steps afterInitialize).map Prod.fst) ∧
    (runSteps steps afterInitialize).minMode =
      specHeld specMinFilter ((selectionsSeen steps afterInitialize).map Prod.snd) ∧
    (selectionsSeen steps afterInitialize ≠ [] →
      ((runSteps steps afterInitialize).gl.tex afterInitialize.texture).magFilter =
        specHeld specMagFilter ((selectionsSeen steps afterInitialize).map Prod.fst) ∧
      ((runSteps steps afterInitialize).gl.tex afterInitialize.texture).minFilter =
        specHeld specMinFilter ((selectionsSeen steps afterInitialize).map Prod.snd)) := by
  have hr := reachable_runSteps steps afterInitialize Reachable.init
  obtain ⟨hmag, hmin, htex⟩ := runSteps_modes steps afterInitialize
  have hmag2 : (runSteps steps afterInitialize).maxMode =
      specHeld specMagFilter ((selectionsSeen steps afterInitialize).map Prod.fst) := by
    rw [hmag, ← foldl_magSwitch_specHeld]; rfl
  have hmin2 : (runSteps steps afterInitialize).minMode =
      specHeld specMinFilter ((selectionsSeen steps afterInitialize).map Prod.snd) := by
    rw [hmin, ← foldl_minSwitch_specHeld]; rfl
  refine ⟨hr, reachable_modes_valid, (reachable_modes_valid _ hr).1,
    (reachable_modes_valid _ hr).2, ?_, ?_, hmag2, hmin2, ?_⟩
  · intro i s hm
    rw [(frame_fields i s).2.2.1]
    unfold magSwitch
    rw [if_neg (fun h0 => hm (Or.inl h0)), if_neg (fun h1 => hm (Or.inr h1))]
  · intro i s hm
    rw [(frame_fields i s).2.2.2.1]
    unfold minSwitch
    split_ifs <;> first | rfl | (exfalso; apply hm; omega)
  · intro hne
    have ha := runSteps_applied steps afterInitialize hne
    rw [htex, hmag2, hmin2] at ha
    exact ha

/-- C10 on the run `strayRun`: the switches read `(1, 3)`, `(7, -2)` and
`(0, 9)`; afterwards the ground texture has mag filter GL_NEAREST (from the 0)
and min filter GL_NEAREST_MIPMAP_LINEAR (from the 3). -/
theorem C10_held_modes_example :
    selectionsSeen strayRun afterInitialize = [(1, 3), (7, -2), (0, 9)] ∧
    ((runSteps strayRun afterInitialize).gl.tex afterInitialize.texture).magFilter =
      GL_NEAREST ∧
    ((runSteps strayRun afterInitialize).gl.tex afterInitialize.texture).minFilter =
      GL_NEAREST_MIPMAP_LINEAR ∧
    (runSteps strayRun afterInitialize).minMode = GL_NEAREST_MIPMAP_LINEAR := by
  refine ⟨by decide, by decide, by decide, by decide⟩

end Lab2
